import Mathlib

/-!
Shallow embedding of `src/scripts/kinesis_consumer.py` (repository
`aws-vpc-endpoints-with-cdk`): a one-shot CLI that acquires a TRIM_HORIZON
shard iterator, fetches at most 200 records, and prints them as a
fixed-minimum-width text table.

The external boto3 Kinesis client is modelled as a pair of oracle functions
(`KinesisClient`); `pyMain` records the API calls it performs (`ApiCall`
trace), the lines written to standard output (printed incrementally, as
Python's `print` does), and the final outcome (normal termination or an
uncaught exception).
-/

namespace KinesisConsumer

/-- Strict UTF-8 decoding of a byte sequence, as Python's
`bytes.decode('utf-8')`: multi-byte sequences must be shortest-form,
surrogate code points (U+D800..U+DFFF) are rejected, code points above
U+10FFFF are impossible by construction. Returns `none` on any invalid
byte sequence (Python raises `UnicodeDecodeError`). -/
def utf8DecodeAux : List Nat → Option (List Char)
  | [] => some []
  | b0 :: rest =>
    if b0 < 0x80 then
      (utf8DecodeAux rest).map (fun cs => Char.ofNat b0 :: cs)
    else if b0 < 0xC2 then
      none
    else if b0 < 0xE0 then
      match rest with
      | b1 :: rest1 =>
        if 0x80 ≤ b1 ∧ b1 < 0xC0 then
          (utf8DecodeAux rest1).map
            (fun cs => Char.ofNat ((b0 - 0xC0) * 0x40 + (b1 - 0x80)) :: cs)
        else none
      | _ => none
    else if b0 < 0xF0 then
      match rest with
      | b1 :: b2 :: rest2 =>
        let lo1 : Nat := if b0 = 0xE0 then 0xA0 else 0x80
        let hi1 : Nat := if b0 = 0xED then 0xA0 else 0xC0
        if (lo1 ≤ b1 ∧ b1 < hi1) ∧ (0x80 ≤ b2 ∧ b2 < 0xC0) then
          (utf8DecodeAux rest2).map
            (fun cs =>
              Char.ofNat ((b0 - 0xE0) * 0x1000 + (b1 - 0x80) * 0x40 + (b2 - 0x80)) :: cs)
        else none
      | _ => none
    else if b0 < 0xF5 then
      match rest with
      | b1 :: b2 :: b3 :: rest3 =>
        let lo1 : Nat := if b0 = 0xF0 then 0x90 else 0x80
        let hi1 : Nat := if b0 = 0xF4 then 0x90 else 0xC0
        if (lo1 ≤ b1 ∧ b1 < hi1) ∧ (0x80 ≤ b2 ∧ b2 < 0xC0) ∧ (0x80 ≤ b3 ∧ b3 < 0xC0) then
          (utf8DecodeAux rest3).map
            (fun cs =>
              Char.ofNat ((b0 - 0xF0) * 0x40000 + (b1 - 0x80) * 0x1000 +
                (b2 - 0x80) * 0x40 + (b3 - 0x80)) :: cs)
        else none
      | _ => none
    else
      none

/-- `bytes.decode('utf-8')` as a `String`-valued partial function. -/
def utf8Decode (bs : List Nat) : Option String :=
  (utf8DecodeAux bs).map String.mk

/-- Python format-spec centering `'{:^w}'.format(s)`: pad with spaces to
width `w`, the extra space (for odd padding) going to the right; strings of
length ≥ `w` are returned unchanged (no truncation). -/
def pyCenter (w : Nat) (s : String) : String :=
  if w ≤ s.length then s
  else
    let pad := w - s.length
    String.mk (List.replicate (pad / 2) ' ') ++ s ++
      String.mk (List.replicate (pad - pad / 2) ' ')

/-- Python format-spec left alignment `'{:<w}'.format(s)`: pad on the right
with spaces to width `w`; strings of length ≥ `w` are returned unchanged. -/
def pyLjust (w : Nat) (s : String) : String :=
  if w ≤ s.length then s
  else s ++ String.mk (List.replicate (w - s.length) ' ')

/-- `fmt.format(a, b, c)` with `fmt = "{:^20} {:^60} {:<40}"`
(line 23 of the script). -/
def fmtLine (a b c : String) : String :=
  pyCenter 20 a ++ " " ++ pyCenter 60 b ++ " " ++ pyLjust 40 c

/-- The header line `fmt.format("Shard", "Position", "Message")` (line 24). -/
def headerLine : String := fmtLine "Shard" "Position" "Message"

/-- The separator line `fmt.format("-"*20, "-"*60, "-"*40)` (line 25). -/
def sepLine : String :=
  fmtLine (String.mk (List.replicate 20 '-')) (String.mk (List.replicate 60 '-'))
    (String.mk (List.replicate 40 '-'))

/-- One Kinesis record as consumed by the script: `record['SequenceNumber']`
(a string) and `record['Data']` (raw bytes, modelled as a list of byte
values). -/
structure KRecord where
  SequenceNumber : String
  Data : List Nat
  deriving Repr, DecidableEq

/-- Response of `get_shard_iterator`: the script reads `['ShardIterator']`. -/
structure IterResponse where
  ShardIterator : String
  deriving Repr, DecidableEq

/-- Response of `get_records`: the script reads `['Records']`; the
`NextShardIterator` field is present in the real response but never used. -/
structure RecordsResponse where
  Records : List KRecord
  NextShardIterator : String
  deriving Repr, DecidableEq

/-- An opaque service-side error (any botocore exception). -/
structure KinesisError where
  message : String
  deriving Repr, DecidableEq

/-- The boto3 Kinesis client, as the two black-box remote operations the
script consumes. Python values that may be `None` (the unvalidated CLI
strings) are `Option String`. -/
structure KinesisClient where
  get_shard_iterator : Option String → Option String → String → Except KinesisError IterResponse
  get_records : String → Nat → Except KinesisError RecordsResponse

/-- One remote API call performed by the script, with the arguments it was
given. -/
inductive ApiCall where
  | get_shard_iterator (streamName shardId : Option String) (shardIteratorType : String)
  | get_records (shardIterator : String) (limit : Nat)
  deriving Repr, DecidableEq

/-- How a run terminates: normally, or with an uncaught Python exception
(a botocore error from a remote call, a `UnicodeDecodeError` from
`.decode('utf-8')`, or the `TypeError` raised by formatting `None` with a
width spec). -/
inductive RunError where
  | apiError (e : KinesisError)
  | unicodeDecodeError
  | typeError
  deriving Repr, DecidableEq

/-- The three CLI values as `argparse` delivers them: each flag is optional
(no `required=True`), defaulting to `None`. -/
structure Args where
  stream_name : Option String
  shard_id : Option String
  region : Option String
  deriving Repr, DecidableEq

/-- Everything observable about one run of `main`: the remote calls made (in
order), the lines printed to stdout (in order, incrementally), and the
outcome. -/
structure RunResult where
  calls : List ApiCall
  output : List String
  result : Except RunError Unit
  deriving Repr

/-- The data row printed for one record (line 27):
`fmt.format(shard_id, record['SequenceNumber'], msg)` where `msg` is the
decoded payload and `shard_id` is known to be a string `sid`. -/
def rowLine (sid : String) (r : KRecord) (msg : String) : String :=
  fmtLine sid r.SequenceNumber msg

/-- The print loop of lines 26-27: for each record, evaluate
`record['Data'].decode('utf-8')` (raising `UnicodeDecodeError` on invalid
bytes), then format it (raising `TypeError` if `shard_id` is `None`), and
print the row. Returns the lines printed before any exception, and the
outcome. -/
def printRecords (shard_id : Option String) : List KRecord → List String × Except RunError Unit
  | [] => ([], Except.ok ())
  | r :: rs =>
    match utf8Decode r.Data with
    | none => ([], Except.error RunError.unicodeDecodeError)
    | some msg =>
      match shard_id with
      | none => ([], Except.error RunError.typeError)
      | some sid =>
        let rest := printRecords shard_id rs
        (rowLine sid r msg :: rest.1, rest.2)

/-- `main(args)` (lines 8-27): create the client from the region, acquire a
TRIM_HORIZON shard iterator, fetch up to 200 records with it, print the
header, the separator, and one row per record. Any exception aborts the run
at that point, keeping whatever was already printed. -/
def pyMain (boto3_client : Option String → KinesisClient) (args : Args) : RunResult :=
  let stream_name := args.stream_name
  let shard_id := args.shard_id
  let aws_region := args.region
  let kinesis := boto3_client aws_region
  let gsiCall := ApiCall.get_shard_iterator stream_name shard_id "TRIM_HORIZON"
  match kinesis.get_shard_iterator stream_name shard_id "TRIM_HORIZON" with
  | Except.error e =>
    { calls := [gsiCall], output := [], result := Except.error (RunError.apiError e) }
  | Except.ok itr_response =>
    let shard_itr := itr_response.ShardIterator
    let grCall := ApiCall.get_records shard_itr 200
    match kinesis.get_records shard_itr 200 with
    | Except.error e =>
      { calls := [gsiCall, grCall], output := [],
        result := Except.error (RunError.apiError e) }
    | Except.ok records_response =>
      let loop := printRecords shard_id records_response.Records
      { calls := [gsiCall, grCall],
        output := headerLine :: sepLine :: loop.1,
        result := loop.2 }

/-- The `__main__` block's argument parsing (lines 30-35): each of the three
flags is declared with no `required=True` and no default, so a missing flag
yields `None`; a flag given without a value or an unrecognized token is an
argparse error (process exits before `main`). -/
def parseArgsAux (acc : Args) : List String → Except String Args
  | [] => Except.ok acc
  | ["--stream-name"] => Except.error "argument --stream-name: expected one argument"
  | ["--shard-id"] => Except.error "argument --shard-id: expected one argument"
  | ["--region"] => Except.error "argument --region: expected one argument"
  | "--stream-name" :: v :: rest => parseArgsAux { acc with stream_name := some v } rest
  | "--shard-id" :: v :: rest => parseArgsAux { acc with shard_id := some v } rest
  | "--region" :: v :: rest => parseArgsAux { acc with region := some v } rest
  | tok :: _ => Except.error ("unrecognized arguments: " ++ tok)

/-- `parser.parse_args()` on the given command-line tokens. -/
def parseArgs (argv : List String) : Except String Args :=
  parseArgsAux ⟨none, none, none⟩ argv

/-- The row rendered for record `r` (shard id `sid`, payload decoded with
`utf8Decode`; only meaningful when the payload decodes). -/
def renderRow (sid : String) (r : KRecord) : String :=
  rowLine sid r ((utf8Decode r.Data).getD "")

/-- A record is renderable when its payload is valid UTF-8. -/
def decodable (r : KRecord) : Bool :=
  (utf8Decode r.Data).isSome

/- ### Helper lemmas about the print loop -/

theorem printRecords_output (sid : String) (recs : List KRecord) :
    (printRecords (some sid) recs).1 =
      (recs.takeWhile decodable).map (renderRow sid) := by
  induction recs with
  | nil => rfl
  | cons r rs ih =>
    by_cases h : (utf8Decode r.Data).isSome
    · obtain ⟨msg, hmsg⟩ := Option.isSome_iff_exists.mp h
      simp [printRecords, hmsg, List.takeWhile, decodable, renderRow, rowLine, ih]
    · rw [Option.not_isSome_iff_eq_none] at h
      simp [printRecords, h, List.takeWhile, decodable]

theorem printRecords_result (sid : String) (recs : List KRecord) :
    (printRecords (some sid) recs).2 = Except.ok () ↔
      ∀ r ∈ recs, decodable r = true := by
  induction recs with
  | nil => simp [printRecords]
  | cons r rs ih =>
    by_cases h : (utf8Decode r.Data).isSome
    · have hr : decodable r = true := h
      obtain ⟨msg, hmsg⟩ := Option.isSome_iff_exists.mp h
      simp [printRecords, hmsg, ih, hr]
    · rw [Option.not_isSome_iff_eq_none] at h
      simp [printRecords, h, decodable]

theorem printRecords_all_ok (sid : String) (recs : List KRecord)
    (h : ∀ r ∈ recs, decodable r = true) :
    printRecords (some sid) recs = (recs.map (renderRow sid), Except.ok ()) := by
  induction recs with
  | nil => rfl
  | cons r rs ih =>
    have hr : decodable r = true := h r (List.mem_cons_self r rs)
    obtain ⟨msg, hmsg⟩ := Option.isSome_iff_exists.mp hr
    have := ih (fun x hx => h x (List.mem_cons_of_mem r hx))
    simp [printRecords, hmsg, this, renderRow, rowLine]

theorem printRecords_fails_at (sid : String) (good : List KRecord)
    (bad : KRecord) (rest : List KRecord)
    (hgood : ∀ r ∈ good, decodable r = true)
    (hbad : utf8Decode bad.Data = none) :
    printRecords (some sid) (good ++ bad :: rest) =
      (good.map (renderRow sid), Except.error RunError.unicodeDecodeError) := by
  induction good with
  | nil => simp [printRecords, hbad]
  | cons r rs ih =>
    have hr : decodable r = true := hgood r (List.mem_cons_self r rs)
    obtain ⟨msg, hmsg⟩ := Option.isSome_iff_exists.mp hr
    have := ih (fun x hx => hgood x (List.mem_cons_of_mem r hx))
    simp [printRecords, hmsg, this, renderRow, rowLine]

/- ### Helper lemmas about column rendering -/

theorem pyCenter_length (w : Nat) (s : String) :
    (pyCenter w s).length = max w s.length := by
  unfold pyCenter
  split
  · next h => simp [Nat.max_eq_right h]
  · next h =>
    simp only [String.length_append, String.length_mk, List.length_replicate]
    omega

theorem pyLjust_length (w : Nat) (s : String) :
    (pyLjust w s).length = max w s.length := by
  unfold pyLjust
  split
  · next h => simp [Nat.max_eq_right h]
  · next h =>
    simp only [String.length_append, String.length_mk, List.length_replicate]
    omega

theorem fmtLine_length (a b c : String) :
    (fmtLine a b c).length =
      max 20 a.length + 1 + max 60 b.length + 1 + max 40 c.length := by
  have h1 : (" " : String).length = 1 := rfl
  simp [fmtLine, String.length_append, pyCenter_length, pyLjust_length, h1]

/- ### Concrete runs used by witnesses and counterexamples -/

/-- A record with a decodable payload: `{SequenceNumber: "4956", Data: b"hello"}`. -/
def demoRecord : KRecord := ⟨"4956", [0x68, 0x65, 0x6C, 0x6C, 0x6F]⟩

/-- A record whose payload `b"\xff"` is not valid UTF-8. -/
def badRecord : KRecord := ⟨"4957", [0xFF]⟩

/-- A record whose payload decodes to 45 characters (wider than column 3). -/
def longRecord : KRecord := ⟨"4958", List.replicate 45 0x79⟩

/-- CLI arguments of the spec's end-to-end example. -/
def demoArgs : Args := ⟨some "orders", some "shardId-0001", some "us-east-1"⟩

/-- A client whose fetch returns the single record `demoRecord`. -/
def demoClient : KinesisClient :=
  { get_shard_iterator := fun _ _ _ => Except.ok ⟨"abc123"⟩
    get_records := fun _ _ => Except.ok ⟨[demoRecord], "nextItr"⟩ }

/-- A client whose fetch returns a decodable record then an undecodable one. -/
def mixedClient : KinesisClient :=
  { get_shard_iterator := fun _ _ _ => Except.ok ⟨"abc123"⟩
    get_records := fun _ _ => Except.ok ⟨[demoRecord, badRecord], "nextItr"⟩ }

/-- A client whose fetch returns zero records. -/
def emptyClient : KinesisClient :=
  { get_shard_iterator := fun _ _ _ => Except.ok ⟨"abc123"⟩
    get_records := fun _ _ => Except.ok ⟨[], "nextItr"⟩ }

/-- A client whose fetch returns one record wider than its column. -/
def longClient : KinesisClient :=
  { get_shard_iterator := fun _ _ _ => Except.ok ⟨"abc123"⟩
    get_records := fun _ _ => Except.ok ⟨[longRecord], "nextItr"⟩ }

/-- A client whose position acquisition fails (e.g. unknown shard). -/
def failClient : KinesisClient :=
  { get_shard_iterator := fun _ _ _ =>
      Except.error ⟨"ResourceNotFoundException"⟩
    get_records := fun _ _ => Except.ok ⟨[], "nextItr"⟩ }

/-- `boto3.client` factory ignoring the region, yielding `demoClient`. -/
def demoFactory : Option String → KinesisClient := fun _ => demoClient

/-- `boto3.client` factory ignoring the region, yielding `mixedClient`. -/
def mixedFactory : Option String → KinesisClient := fun _ => mixedClient

/-- `boto3.client` factory ignoring the region, yielding `emptyClient`. -/
def emptyFactory : Option String → KinesisClient := fun _ => emptyClient

/-- `boto3.client` factory ignoring the region, yielding `longClient`. -/
def longFactory : Option String → KinesisClient := fun _ => longClient

/-- `boto3.client` factory ignoring the region, yielding `failClient`. -/
def failFactory : Option String → KinesisClient := fun _ => failClient

/- ### Claim theorems -/

/-- C1: in every run where the position acquisition returns a cursor, the
call trace is exactly the acquisition call followed by one `get_records`
call with that very cursor and limit 200, and nothing after it (the
returned next-cursor is never used for a further fetch). -/
theorem get_records_called_once_with_cursor
    (boto3_client : Option String → KinesisClient) (args : Args)
    (it : IterResponse)
    (h : (boto3_client args.region).get_shard_iterator args.stream_name
        args.shard_id "TRIM_HORIZON" = Except.ok it) :
    (pyMain boto3_client args).calls =
      [ApiCall.get_shard_iterator args.stream_name args.shard_id "TRIM_HORIZON",
       ApiCall.get_records it.ShardIterator 200] := by
  cases hgr : (boto3_client args.region).get_records it.ShardIterator 200 <;>
    simp [pyMain, h, hgr]

/-- Witness for C1: a concrete run yielding cursor `"abc123"`. -/
theorem get_records_called_once_with_cursor_witness :
    (pyMain demoFactory demoArgs).calls =
      [ApiCall.get_shard_iterator (some "orders") (some "shardId-0001") "TRIM_HORIZON",
       ApiCall.get_records "abc123" 200] :=
  get_records_called_once_with_cursor demoFactory demoArgs ⟨"abc123"⟩ rfl

/-- C5: whenever the position acquisition fails, the call trace contains
only the acquisition call — `get_records` is never invoked — and the
failure propagates as the run's outcome. -/
theorem no_fetch_after_failed_acquisition
    (boto3_client : Option String → KinesisClient) (args : Args)
    (e : KinesisError)
    (h : (boto3_client args.region).get_shard_iterator args.stream_name
        args.shard_id "TRIM_HORIZON" = Except.error e) :
    (pyMain boto3_client args).calls =
      [ApiCall.get_shard_iterator args.stream_name args.shard_id "TRIM_HORIZON"] ∧
    (pyMain boto3_client args).result = Except.error (RunError.apiError e) := by
  constructor <;> simp [pyMain, h]

/-- Witness for C5: a concrete run whose acquisition fails. -/
theorem no_fetch_after_failed_acquisition_witness :
    (pyMain failFactory demoArgs).calls =
      [ApiCall.get_shard_iterator (some "orders") (some "shardId-0001") "TRIM_HORIZON"] ∧
    (pyMain failFactory demoArgs).result =
      Except.error (RunError.apiError ⟨"ResourceNotFoundException"⟩) :=
  no_fetch_after_failed_acquisition failFactory demoArgs
    ⟨"ResourceNotFoundException"⟩ rfl

/-- C6: when the fetch returns zero records, the output is exactly the
header line and the dash separator line, with no data rows, and the run
terminates normally. -/
theorem empty_batch_prints_header_only
    (boto3_client : Option String → KinesisClient) (args : Args)
    (it : IterResponse) (resp : RecordsResponse)
    (hit : (boto3_client args.region).get_shard_iterator args.stream_name
        args.shard_id "TRIM_HORIZON" = Except.ok it)
    (hresp : (boto3_client args.region).get_records it.ShardIterator 200 =
        Except.ok resp)
    (hempty : resp.Records = []) :
    (pyMain boto3_client args).output = [headerLine, sepLine] ∧
    (pyMain boto3_client args).result = Except.ok () := by
  constructor <;> simp [pyMain, hit, hresp, hempty, printRecords]

/-- Witness for C6: a concrete run fetching an empty batch. -/
theorem empty_batch_prints_header_only_witness :
    (pyMain emptyFactory demoArgs).output = [headerLine, sepLine] ∧
    (pyMain emptyFactory demoArgs).result = Except.ok () :=
  empty_batch_prints_header_only emptyFactory demoArgs ⟨"abc123"⟩
    ⟨[], "nextItr"⟩ rfl rfl rfl

/-- C8: in every run — whatever the CLI arguments — every position
acquisition in the trace uses iterator type `TRIM_HORIZON` and every
fetch in the trace uses limit 200: neither value depends on any flag. -/
theorem hardcoded_iterator_type_and_limit
    (boto3_client : Option String → KinesisClient) (args : Args) :
    (∀ s sh t, ApiCall.get_shard_iterator s sh t ∈ (pyMain boto3_client args).calls →
      t = "TRIM_HORIZON") ∧
    (∀ cur lim, ApiCall.get_records cur lim ∈ (pyMain boto3_client args).calls →
      lim = 200) := by
  cases hgsi : (boto3_client args.region).get_shard_iterator args.stream_name
      args.shard_id "TRIM_HORIZON" with
  | error e =>
    constructor
    · intro s sh t hmem
      simp [pyMain, hgsi] at hmem
      exact hmem.2.2
    · intro cur lim hmem
      simp [pyMain, hgsi] at hmem
  | ok it =>
    cases hgr : (boto3_client args.region).get_records it.ShardIterator 200 with
    | error e =>
      constructor
      · intro s sh t hmem
        simp [pyMain, hgsi, hgr] at hmem
        exact hmem.2.2
      · intro cur lim hmem
        simp [pyMain, hgsi, hgr] at hmem
        exact hmem.2
    | ok resp =>
      constructor
      · intro s sh t hmem
        simp [pyMain, hgsi, hgr] at hmem
        exact hmem.2.2
      · intro cur lim hmem
        simp [pyMain, hgsi, hgr] at hmem
        exact hmem.2

/-- Witness for C8: a concrete run's calls have the hardcoded values. -/
theorem hardcoded_iterator_type_and_limit_witness :
    "TRIM_HORIZON" = "TRIM_HORIZON" ∧ (200 : Nat) = 200 :=
  ⟨(hardcoded_iterator_type_and_limit demoFactory demoArgs).1
      (some "orders") (some "shardId-0001") "TRIM_HORIZON"
      (by simp [pyMain, demoFactory, demoClient, demoArgs]),
    (hardcoded_iterator_type_and_limit demoFactory demoArgs).2
      "abc123" 200 (by simp [pyMain, demoFactory, demoClient])⟩

/-- C9: none of the three flags is required — parsing an empty command line
succeeds with all three values `None` — and those `None` values are passed
straight to the remote acquisition call, whose failure is the only way such
an invocation fails. -/
theorem missing_flags_not_rejected :
    parseArgs [] = Except.ok ⟨none, none, none⟩ ∧
    (∀ boto3_client : Option String → KinesisClient,
      (pyMain boto3_client ⟨none, none, none⟩).calls.head? =
        some (ApiCall.get_shard_iterator none none "TRIM_HORIZON")) ∧
    (∀ (boto3_client : Option String → KinesisClient) (e : KinesisError),
      (boto3_client none).get_shard_iterator none none "TRIM_HORIZON" =
        Except.error e →
      (pyMain boto3_client ⟨none, none, none⟩).result =
        Except.error (RunError.apiError e)) := by
  refine ⟨rfl, ?_, ?_⟩
  · intro f
    cases hgsi : (f none).get_shard_iterator none none "TRIM_HORIZON" with
    | error e => simp [pyMain, hgsi]
    | ok it =>
      cases hgr : (f none).get_records it.ShardIterator 200 <;>
        simp [pyMain, hgsi, hgr]
  · intro f e h
    simp [pyMain, h]

/-- Witness for C9: with all flags omitted and a failing service, the run
fails with the remote call's error. -/
theorem missing_flags_not_rejected_witness :
    (pyMain failFactory ⟨none, none, none⟩).result =
      Except.error (RunError.apiError ⟨"ResourceNotFoundException"⟩) :=
  missing_flags_not_rejected.2.2 failFactory ⟨"ResourceNotFoundException"⟩ rfl

/-- C2: when the fetch returns records (1 ≤ N ≤ 200) whose payloads all
decode, the output is the header, the separator, and then one row per
record in the service's order, each row formatting the CLI shard id, the
record's sequence number, and its UTF-8-decoded payload. -/
theorem rows_match_records
    (boto3_client : Option String → KinesisClient) (args : Args)
    (sid : String) (it : IterResponse) (resp : RecordsResponse)
    (hsid : args.shard_id = some sid)
    (hit : (boto3_client args.region).get_shard_iterator args.stream_name
        args.shard_id "TRIM_HORIZON" = Except.ok it)
    (hresp : (boto3_client args.region).get_records it.ShardIterator 200 =
        Except.ok resp)
    (hN : 1 ≤ resp.Records.length ∧ resp.Records.length ≤ 200)
    (hdec : ∀ r ∈ resp.Records, decodable r = true) :
    (pyMain boto3_client args).output =
      headerLine :: sepLine :: resp.Records.map (renderRow sid) ∧
    (pyMain boto3_client args).output.length = resp.Records.length + 2 := by
  have h := printRecords_all_ok sid resp.Records hdec
  rw [hsid] at hit
  constructor
  · simp [pyMain, hsid, hit, hresp, h]
  · simp [pyMain, hsid, hit, hresp, h]

/-- Witness for C2: one record `b"hello"` yields exactly one data row. -/
theorem rows_match_records_witness :
    (pyMain demoFactory demoArgs).output =
      headerLine :: sepLine :: [demoRecord].map (renderRow "shardId-0001") ∧
    (pyMain demoFactory demoArgs).output.length = 3 :=
  rows_match_records demoFactory demoArgs "shardId-0001" ⟨"abc123"⟩
    ⟨[demoRecord], "nextItr"⟩ rfl rfl rfl (by decide) (by decide)

/-- Counterexample to C3 as stated: a run whose second record fails to
decode has already printed the header, the separator, and the first data
row — a partial table is emitted even though the run aborts. -/
theorem no_partial_table_counterexample :
    (pyMain mixedFactory demoArgs).result =
      Except.error RunError.unicodeDecodeError ∧
    (pyMain mixedFactory demoArgs).output =
      [headerLine, sepLine, renderRow "shardId-0001" demoRecord] ∧
    (pyMain mixedFactory demoArgs).output ≠ [] := by
  refine ⟨rfl, rfl, ?_⟩
  have h : (pyMain mixedFactory demoArgs).output =
      [headerLine, sepLine, renderRow "shardId-0001" demoRecord] := rfl
  rw [h]
  simp

/-- C3 amended: output is printed incrementally — every run either prints
nothing (a remote call failed first), or prints the header, the separator,
and one row for each record of the longest decodable prefix of the batch;
the run terminates normally exactly when every record decodes. A mid-batch
decode failure therefore leaves a partial table behind. -/
theorem output_is_table_of_decodable_prefix
    (boto3_client : Option String → KinesisClient) (args : Args)
    (sid : String) (hsid : args.shard_id = some sid) :
    (pyMain boto3_client args).output = [] ∨
    ∃ it resp,
      (boto3_client args.region).get_shard_iterator args.stream_name
        args.shard_id "TRIM_HORIZON" = Except.ok it ∧
      (boto3_client args.region).get_records it.ShardIterator 200 =
        Except.ok resp ∧
      (pyMain boto3_client args).output =
        headerLine :: sepLine ::
          (resp.Records.takeWhile decodable).map (renderRow sid) ∧
      ((pyMain boto3_client args).result = Except.ok () ↔
        ∀ r ∈ resp.Records, decodable r = true) := by
  cases hgsi : (boto3_client args.region).get_shard_iterator args.stream_name
      args.shard_id "TRIM_HORIZON" with
  | error e => left; simp [pyMain, hgsi]
  | ok it =>
    cases hgr : (boto3_client args.region).get_records it.ShardIterator 200 with
    | error e => left; simp [pyMain, hgsi, hgr]
    | ok resp =>
      right
      rw [hsid] at hgsi
      refine ⟨it, resp, rfl, hgr, ?_, ?_⟩
      · simp [pyMain, hsid, hgsi, hgr, printRecords_output]
      · simp [pyMain, hsid, hgsi, hgr, printRecords_result]

/-- Witness for the amended C3, at the run with a mid-batch decode
failure. -/
theorem output_is_table_of_decodable_prefix_witness :
    (pyMain mixedFactory demoArgs).output = [] ∨
    ∃ it resp,
      (mixedFactory demoArgs.region).get_shard_iterator demoArgs.stream_name
        demoArgs.shard_id "TRIM_HORIZON" = Except.ok it ∧
      (mixedFactory demoArgs.region).get_records it.ShardIterator 200 =
        Except.ok resp ∧
      (pyMain mixedFactory demoArgs).output =
        headerLine :: sepLine ::
          (resp.Records.takeWhile decodable).map (renderRow "shardId-0001") ∧
      ((pyMain mixedFactory demoArgs).result = Except.ok () ↔
        ∀ r ∈ resp.Records, decodable r = true) :=
  output_is_table_of_decodable_prefix mixedFactory demoArgs "shardId-0001" rfl

/-- C4: when the i-th record's payload is not valid UTF-8 (and all earlier
ones decode), the run fails with the decode error; the output holds rows
only for the earlier records — no row for the bad record, no substitute
rendering of any kind. -/
theorem invalid_payload_aborts_at_record
    (boto3_client : Option String → KinesisClient) (args : Args)
    (sid : String) (it : IterResponse) (resp : RecordsResponse) (i : Nat)
    (hsid : args.shard_id = some sid)
    (hit : (boto3_client args.region).get_shard_iterator args.stream_name
        args.shard_id "TRIM_HORIZON" = Except.ok it)
    (hresp : (boto3_client args.region).get_records it.ShardIterator 200 =
        Except.ok resp)
    (hi : i < resp.Records.length)
    (hgood : ∀ r ∈ resp.Records.take i, decodable r = true)
    (hbad : utf8Decode (resp.Records.get ⟨i, hi⟩).Data = none) :
    (pyMain boto3_client args).result =
      Except.error RunError.unicodeDecodeError ∧
    (pyMain boto3_client args).output =
      headerLine :: sepLine :: (resp.Records.take i).map (renderRow sid) := by
  have hsplit : resp.Records =
      resp.Records.take i ++ resp.Records.get ⟨i, hi⟩ ::
        resp.Records.drop (i + 1) := by
    conv_lhs => rw [← List.take_append_drop i resp.Records]
    rw [List.drop_eq_getElem_cons hi]
    rfl
  have hpr : printRecords (some sid) resp.Records =
      ((resp.Records.take i).map (renderRow sid),
        Except.error RunError.unicodeDecodeError) := by
    conv_lhs => rw [hsplit]
    exact printRecords_fails_at sid _ _ _ hgood hbad
  rw [hsid] at hit
  constructor
  · simp [pyMain, hsid, hit, hresp, hpr]
  · simp [pyMain, hsid, hit, hresp, hpr]

/-- Witness for C4: the run whose second record is `b"\xff"`. -/
theorem invalid_payload_aborts_at_record_witness :
    (pyMain mixedFactory demoArgs).result =
      Except.error RunError.unicodeDecodeError ∧
    (pyMain mixedFactory demoArgs).output =
      headerLine :: sepLine ::
        ([demoRecord, badRecord].take 1).map (renderRow "shardId-0001") :=
  invalid_payload_aborts_at_record mixedFactory demoArgs "shardId-0001"
    ⟨"abc123"⟩ ⟨[demoRecord, badRecord], "nextItr"⟩ 1 rfl rfl rfl
    (by decide) (by decide) rfl

/-- Counterexample to C7 as stated: a data row whose message is 45
characters long renders 127 characters wide while the separator row is 122
characters wide — the third column is not the same width in every row. -/
theorem fixed_column_widths_counterexample :
    (pyMain longFactory demoArgs).output.length = 3 ∧
    ((pyMain longFactory demoArgs).output.getD 1 "").length = 122 ∧
    ((pyMain longFactory demoArgs).output.getD 2 "").length = 127 :=
  ⟨rfl, rfl, rfl⟩

/-- C7 amended: the widths 20 / 60 / 40 are minimum field widths. The
header and separator rows (the separator being dashes of widths 20, 60 and
40) and every data row whose contents fit within 20 / 60 / 40 characters
render their columns at exactly those widths (total line width 122);
longer content widens its column for that row. -/
theorem columns_have_min_widths
    (s q m : String)
    (hs : s.length ≤ 20) (hq : q.length ≤ 60) (hm : m.length ≤ 40) :
    (pyCenter 20 s).length = 20 ∧ (pyCenter 60 q).length = 60 ∧
    (pyLjust 40 m).length = 40 ∧ (fmtLine s q m).length = 122 ∧
    headerLine.length = 122 ∧ sepLine.length = 122 ∧
    sepLine = String.mk (List.replicate 20 '-') ++ " " ++
      String.mk (List.replicate 60 '-') ++ " " ++
      String.mk (List.replicate 40 '-') := by
  refine ⟨?_, ?_, ?_, ?_, rfl, rfl, rfl⟩
  · rw [pyCenter_length]; omega
  · rw [pyCenter_length]; omega
  · rw [pyLjust_length]; omega
  · rw [fmtLine_length]; omega

/-- Witness for the amended C7, at the spec's example row contents. -/
theorem columns_have_min_widths_witness :
    (pyCenter 20 "shardId-0001").length = 20 ∧
    (pyCenter 60 "4956").length = 60 ∧
    (pyLjust 40 "hello").length = 40 ∧
    (fmtLine "shardId-0001" "4956" "hello").length = 122 ∧
    headerLine.length = 122 ∧ sepLine.length = 122 ∧
    sepLine = String.mk (List.replicate 20 '-') ++ " " ++
      String.mk (List.replicate 60 '-') ++ " " ++
      String.mk (List.replicate 40 '-') :=
  columns_have_min_widths "shardId-0001" "4956" "hello"
    (by decide) (by decide) (by decide)

/-- C10: content longer than its column's width is printed in full — the
formatting never truncates; the over-wide field simply replaces its padded
column, widening the row. -/
theorem overlong_content_never_truncated (s q m : String) :
    (20 < s.length →
      fmtLine s q m = s ++ " " ++ pyCenter 60 q ++ " " ++ pyLjust 40 m) ∧
    (60 < q.length →
      fmtLine s q m = pyCenter 20 s ++ " " ++ q ++ " " ++ pyLjust 40 m) ∧
    (40 < m.length →
      fmtLine s q m = pyCenter 20 s ++ " " ++ pyCenter 60 q ++ " " ++ m) := by
  refine ⟨?_, ?_, ?_⟩
  · intro h
    have hle : (20 : Nat) ≤ s.length := le_of_lt h
    simp [fmtLine, pyCenter, hle]
  · intro h
    have hle : (60 : Nat) ≤ q.length := le_of_lt h
    simp [fmtLine, pyCenter, hle]
  · intro h
    have hle : (40 : Nat) ≤ m.length := le_of_lt h
    simp [fmtLine, pyLjust, hle]

/-- Witness for C10: a 45-character message is kept whole in its row. -/
theorem overlong_content_never_truncated_witness :
    fmtLine "shardId-0001" "4956" (String.mk (List.replicate 45 'y')) =
      pyCenter 20 "shardId-0001" ++ " " ++ pyCenter 60 "4956" ++ " " ++
        String.mk (List.replicate 45 'y') :=
  (overlong_content_never_truncated "shardId-0001" "4956"
    (String.mk (List.replicate 45 'y'))).2.2 (by decide)

end KinesisConsumer
